import Mathlib

/-!
Verification of the Bartending_Back authentication slice.

The definitions below are a shallow embedding of the JavaScript source:
the JWT middleware (`src/middleware/auth.js`), the auth routes
(`src/routes/auth.js`), the admin user routes (`src/routes/users.js`)
and the rate limiter configuration (`src/middleware/rateLimiter.js`).
Database state is an explicit list of user rows; handlers take the state
and return the HTTP response (status code and message) together with the
resulting state.  External collaborators (bcrypt, sha256, the jsonwebtoken
library, the express-rate-limit counter) are modelled as executable Lean
functions faithful to the behaviour the specification ascribes to them.
Timestamps are naturals counting milliseconds, matching `Date.now()`.
-/

namespace Bartending

/-- A row of the `users` table: columns
{id, username, email, password_hash, role, reset_token, reset_token_expiry}. -/
structure User where
  id : Nat
  username : String
  email : String
  passwordHash : String
  role : String
  resetToken : Option String
  resetTokenExpiry : Option Nat
deriving Repr, DecidableEq

/-- Modelled from the spec: the external Credential Hasher (`bcrypt.hash` with
work factor 10).  The salt is irrelevant to every claim under verification, so
the digest is modelled as a deterministic injective tagging of the plaintext. -/
def bcryptHash (plaintext : String) : String :=
  "bcrypt10$" ++ plaintext

/-- Modelled from the spec: `bcrypt.compare` — verification succeeds exactly
when the digest was produced from the plaintext. -/
def bcryptCompare (plaintext digest : String) : Bool :=
  digest == bcryptHash plaintext

/-- Modelled from the spec: `crypto.createHash('sha256')...digest('hex')`, the
fast deterministic hash used for reset tokens; modelled as injective tagging. -/
def sha256hex (s : String) : String :=
  "sha256$" ++ s

/-- The identity claim set `{id, username, email, role}` placed in the JWT
payload by `generateToken` (`src/middleware/auth.js`). -/
structure Claims where
  id : Nat
  username : String
  email : String
  role : String
deriving Repr, DecidableEq

/-- Modelled from the spec: a signed token of the external jsonwebtoken
library — a self-contained claim set with the signing secret and expiry. -/
structure Jwt where
  payload : Claims
  secret : String
  iat : Nat
  exp : Nat
deriving Repr, DecidableEq

/-- Outcome of `jwt.verify`: decoded claims, or the `TokenExpiredError`
kind, or any other verification failure (`JsonWebTokenError`). -/
inductive VerifyResult where
  | ok (c : Claims)
  | expired
  | invalid
deriving Repr, DecidableEq

/-- Modelled from the spec: `jwt.sign(payload, secret, { expiresIn })`. -/
def jwtSign (payload : Claims) (secret : String) (now expiresIn : Nat) : Jwt :=
  { payload := payload, secret := secret, iat := now, exp := now + expiresIn }

/-- Modelled from the spec: `jwt.verify(token, secret)` — the signature is
checked first (wrong secret is `invalid` even if also expired), then expiry. -/
def jwtVerify (t : Jwt) (secret : String) (now : Nat) : VerifyResult :=
  if t.secret ≠ secret then .invalid
  else if t.exp ≤ now then .expired
  else .ok t.payload

/-- The function `generateToken` (`src/middleware/auth.js` lines 275-289): throws when
`JWT_SECRET` is undefined (modelled as `none`), otherwise signs the
`{id, username, email, role}` payload. -/
def generateToken (jwtSecret : Option String) (user : User) (now expiresIn : Nat) :
    Option Jwt :=
  match jwtSecret with
  | none => none
  | some s =>
      some (jwtSign { id := user.id, username := user.username,
                      email := user.email, role := user.role } s now expiresIn)

/-- Characters of the wire header up to the first space, dropped; `none` when
the header holds no space at all (JavaScript `split(' ')[1]` is `undefined`). -/
def dropUntilSpace : List Char → Option (List Char)
  | [] => none
  | c :: rest => if c == ' ' then some rest else dropUntilSpace rest

/-- Characters up to the next space — the contents of `split(' ')[1]`. -/
def takeUntilSpace : List Char → List Char
  | [] => []
  | c :: rest => if c == ' ' then [] else c :: takeUntilSpace rest

/-- The expression `authHeader.split(' ')[1]`: the field between the first and second space. -/
def secondField (s : String) : Option String :=
  match dropUntilSpace s.data with
  | none => none
  | some rest => some ⟨takeUntilSpace rest⟩

/-- Token extraction of `authenticateToken`:
`const token = authHeader && authHeader.split(' ')[1]` followed by the
falsiness test `if (!token)` — an absent header, a header with no second
field, and an empty second field all yield no token. -/
def extractToken (authHeader : Option String) : Option String :=
  match authHeader with
  | none => none
  | some h =>
      match secondField h with
      | none => none
      | some t => if t == "" then none else some t

/-- Result of running a middleware: reject with an HTTP status and message,
or attach the decoded claims to the request context and continue. -/
inductive AuthOutcome where
  | reject (status : Nat) (msg : String)
  | proceed (c : Claims)
deriving Repr, DecidableEq

/-- The middleware `authenticateToken` (`src/middleware/auth.js` lines 208-231).  `decode`
models parsing of the wire token into a structured token; a malformed wire
token (`decode = none`) makes `jwt.verify` throw a `JsonWebTokenError`,
which the middleware maps to 403. -/
def authenticateToken (decode : String → Option Jwt) (jwtSecret : Option String)
    (authHeader : Option String) (now : Nat) : AuthOutcome :=
  match extractToken authHeader with
  | none => .reject 401 "Authentication required"
  | some tok =>
      match jwtSecret with
      | none => .reject 500 "Server configuration error"
      | some s =>
          match decode tok with
          | none => .reject 403 "Invalid token"
          | some j =>
              match jwtVerify j s now with
              | .expired => .reject 401 "Token expired"
              | .invalid => .reject 403 "Invalid token"
              | .ok c => .proceed c

/-- The middleware `requireAdmin` (`src/middleware/auth.js` lines 237-247). -/
def requireAdmin (ctxUser : Option Claims) : AuthOutcome :=
  match ctxUser with
  | none => .reject 401 "Authentication required"
  | some c => if c.role ≠ "admin" then .reject 403 "Admin access required" else .proceed c

/-- C1: with the signing secret configured, `authenticateToken` follows the
specified state machine — no header, or no token after splitting on the
space, rejects 401; an expired token rejects 401 with the expired message;
any other verification failure rejects 403 with the invalid message; a
verified token attaches its claims and continues. -/
theorem authenticateToken_state_machine
    (decode : String → Option Jwt) (jwtSecret : Option String)
    (authHeader : Option String) (now : Nat) (s : String)
    (hs : jwtSecret = some s) :
    (authHeader = none →
      authenticateToken decode jwtSecret authHeader now =
        .reject 401 "Authentication required") ∧
    (extractToken authHeader = none →
      authenticateToken decode jwtSecret authHeader now =
        .reject 401 "Authentication required") ∧
    (∀ tok, extractToken authHeader = some tok →
      (decode tok = none →
        authenticateToken decode jwtSecret authHeader now =
          .reject 403 "Invalid token") ∧
      (∀ j, decode tok = some j →
        (jwtVerify j s now = .expired →
          authenticateToken decode jwtSecret authHeader now =
            .reject 401 "Token expired") ∧
        (jwtVerify j s now = .invalid →
          authenticateToken decode jwtSecret authHeader now =
            .reject 403 "Invalid token") ∧
        (∀ c, jwtVerify j s now = .ok c →
          authenticateToken decode jwtSecret authHeader now = .proceed c))) := by
  subst hs
  refine ⟨?_, ?_, ?_⟩
  · intro h; subst h; rfl
  · intro h; simp [authenticateToken, h]
  · intro tok htok
    refine ⟨?_, ?_⟩
    · intro hdec; simp [authenticateToken, htok, hdec]
    · intro j hdec
      refine ⟨?_, ?_, ?_⟩
      · intro hv; simp [authenticateToken, htok, hdec, hv]
      · intro hv; simp [authenticateToken, htok, hdec, hv]
      · intro c hv; simp [authenticateToken, htok, hdec, hv]

/-- Witness for C1: the state machine evaluated on concrete requests. -/
theorem authenticateToken_state_machine_witness :
    authenticateToken (fun _ => none) (some "k") none 0 =
      .reject 401 "Authentication required" ∧
    authenticateToken (fun _ => none) (some "k") (some "Bearer abc") 0 =
      .reject 403 "Invalid token" :=
  ⟨(authenticateToken_state_machine (fun _ => none) (some "k") none 0 "k" rfl).1 rfl,
   ((authenticateToken_state_machine (fun _ => none) (some "k")
      (some "Bearer abc") 0 "k" rfl).2.2 "abc" (by decide)).1 rfl⟩

/-- C2: a freshly issued token round-trips — before expiry and under the
signing secret, verification succeeds and recovers the same id, username,
email and role as the issuing user. -/
theorem generateToken_roundtrip (u : User) (s : String) (now expiresIn t : Nat)
    (h : t < now + expiresIn) :
    ∃ jwt, generateToken (some s) u now expiresIn = some jwt ∧
      ∃ c, jwtVerify jwt s t = .ok c ∧
        c.id = u.id ∧ c.username = u.username ∧ c.email = u.email ∧ c.role = u.role := by
  refine ⟨_, rfl,
    { id := u.id, username := u.username, email := u.email, role := u.role },
    ?_, rfl, rfl, rfl, rfl⟩
  simp [jwtVerify, jwtSign, Nat.not_le_of_lt h]

/-- Witness for C2: the round-trip at a concrete user and clock. -/
theorem generateToken_roundtrip_witness :
    ∃ jwt, generateToken (some "k")
        { id := 7, username := "alice", email := "a@b.com", passwordHash := "h",
          role := "user", resetToken := none, resetTokenExpiry := none }
        0 604800000 = some jwt ∧
      ∃ c, jwtVerify jwt "k" 1000 = .ok c ∧
        c.id = 7 ∧ c.username = "alice" ∧ c.email = "a@b.com" ∧ c.role = "user" :=
  generateToken_roundtrip
    { id := 7, username := "alice", email := "a@b.com", passwordHash := "h",
      role := "user", resetToken := none, resetTokenExpiry := none }
    "k" 0 604800000 1000 (by decide)

/-- ASCII lowercasing of one character — the effect of SQL `LOWER` (and of
JavaScript `toLowerCase`) on the ASCII identifiers this API stores. -/
def lowerChar (c : Char) : Char :=
  if 65 ≤ c.toNat && c.toNat ≤ 90 then Char.ofNat (c.toNat + 32) else c

/-- SQL `LOWER` applied to a whole string. -/
def lowerStr (s : String) : String :=
  ⟨s.data.map lowerChar⟩

/-- Split a character list on a separator character, keeping empty fields,
exactly as JavaScript `split` and the anchored regex alternation do. -/
def splitChar (sep : Char) : List Char → List (List Char)
  | [] => [[]]
  | c :: rest =>
      match splitChar sep rest with
      | [] => if c == sep then [[], [c]] else [[c]]
      | h :: t => if c == sep then [] :: h :: t else (c :: h) :: t

/-- Character class `[A-Za-z0-9._%+-]` of the registration email regex. -/
def isLocalChar (c : Char) : Bool :=
  c.isAlpha || c.isDigit || c == '.' || c == '_' || c == '%' || c == '+' || c == '-'

/-- Character class `[A-Za-z0-9.-]` of the registration email regex. -/
def isDomainChar (c : Char) : Bool :=
  c.isAlpha || c.isDigit || c == '.' || c == '-'

/-- The domain part `[A-Za-z0-9.-]+\.[A-Za-z]{2,}$`: at least one character,
then a dot, then two or more letters running to the end.  Because the final
letter block cannot contain a dot, the separating dot is the last dot. -/
def domainOk (cs : List Char) : Bool :=
  match (splitChar '.' cs).reverse with
  | tld :: p :: rest =>
      decide (2 ≤ tld.length) && tld.all Char.isAlpha &&
      (!rest.isEmpty || !p.isEmpty) &&
      (p :: rest).all (fun seg => seg.all isDomainChar)
  | _ => false

/-- The registration email test
`/^[A-Za-z0-9._%+-]+@[A-Za-z0-9.-]+\.[A-Za-z]{2,}$/.test(email)`
(`src/routes/auth.js` lines 53-54).  No character class admits `@`, so a
matching address has exactly one `@` separating local part and domain. -/
def emailRegexTest (email : String) : Bool :=
  match splitChar '@' email.data with
  | [l, d] => !l.isEmpty && l.all isLocalChar && domainOk d
  | _ => false

/-- The pre-insert uniqueness check of `POST /auth/register`
(`src/routes/auth.js` lines 61-64):
`LOWER(username) = LOWER($1) OR LOWER(email) = LOWER($2)`. -/
def registerConflict (username email : String) (u : User) : Bool :=
  lowerStr u.username == lowerStr username || lowerStr u.email == lowerStr email

/-- Modelled from the spec: the `users` table unique constraint enforced by
the external persistence layer at insert time (the schema lives in the
separate Bartending_DB repository); modelled as exact-match uniqueness on
username and email.  A violation makes the insert throw. -/
def uniqueViolation (username email : String) (u : User) : Bool :=
  u.username == username || u.email == email

/-- The stage of `POST /auth/register` from the uniqueness check on:
`dbCheck` is the database snapshot read by the pre-insert `SELECT`,
`dbInsert` the snapshot the `INSERT` runs against (they differ exactly when
a concurrent registration lands between the two statements).  An insert-time
unique violation throws and is handled by the route's catch-all, which
responds 500 (`src/routes/auth.js` lines 97-100).  A missing `JWT_SECRET`
makes `generateToken` throw after the row was inserted, also reaching the
catch-all. -/
def registerUniquenessStage (dbCheck dbInsert : List User)
    (username email password : String) (nextId : Nat) (jwtSecret : Option String)
    (now expiresIn : Nat) : (Nat × String) × List User :=
  if dbCheck.any (registerConflict username email) then
    ((409, "Ce nom d\x27utilisateur ou email est déjà utilisé"), dbInsert)
  else if dbInsert.any (uniqueViolation username email) then
    ((500, "Erreur lors de l\x27inscription"), dbInsert)
  else
    let newUser : User :=
      { id := nextId, username := username, email := email,
        passwordHash := bcryptHash password, role := "user",
        resetToken := none, resetTokenExpiry := none }
    match generateToken jwtSecret newUser now expiresIn with
    | none => ((500, "Erreur lors de l\x27inscription"), dbInsert ++ [newUser])
    | some _ => ((201, "created"), dbInsert ++ [newUser])

/-- Handler of `POST /auth/register` (`src/routes/auth.js` lines 29-101): presence,
username-length, password-length and email-format validation in source
order, then the uniqueness stage. -/
def postRegister (dbCheck dbInsert : List User)
    (username email password : String) (nextId : Nat) (jwtSecret : Option String)
    (now expiresIn : Nat) : (Nat × String) × List User :=
  if username == "" || email == "" || password == "" then
    ((400, "Nom d\x27utilisateur, email et mot de passe requis"), dbInsert)
  else if username.length < 3 then
    ((400, "Le nom d\x27utilisateur doit contenir au moins 3 caractères"), dbInsert)
  else if password.length < 8 then
    ((400, "Le mot de passe doit contenir au moins 8 caractères"), dbInsert)
  else if !emailRegexTest email then
    ((400, "Format d\x27email invalide"), dbInsert)
  else
    registerUniquenessStage dbCheck dbInsert username email password nextId
      jwtSecret now expiresIn

/-- The lookup of `POST /auth/login` (`src/routes/auth.js` lines 120-125):
`LOWER(username) = LOWER($1) OR LOWER(email) = LOWER($1)`. -/
def loginMatches (login : String) (u : User) : Bool :=
  lowerStr u.username == lowerStr login || lowerStr u.email == lowerStr login

/-- Handler of `POST /auth/login` (`src/routes/auth.js` lines 109-161): presence check,
case-insensitive lookup of the single `login` field against username and
email, then `bcrypt.compare` against the stored hash; both failure paths
answer 401 with the same message. -/
def postLogin (db : List User) (login password : String)
    (jwtSecret : Option String) (now expiresIn : Nat) : Nat × String :=
  if login == "" || password == "" then
    (400, "Identifiant et mot de passe requis")
  else
    match db.find? (loginMatches login) with
    | none => (401, "Identifiant ou mot de passe incorrect")
    | some u =>
        if bcryptCompare password u.passwordHash then
          match generateToken jwtSecret u now expiresIn with
          | none => (500, "Erreur lors de la connexion")
          | some _ => (200, "ok")
        else (401, "Identifiant ou mot de passe incorrect")

/-- C7: registration validation boundaries — with all three fields present,
a username shorter than 3 fails 400 and one of length 3 or more passes the
username check; a password shorter than 8 fails 400 and one of length 8 or
more passes the password check; an email rejected by the address pattern
fails 400; a request passing all three checks proceeds to the uniqueness
check. -/
theorem register_validation_boundaries (dbCheck dbInsert : List User)
    (username email password : String) (nextId : Nat) (jwtSecret : Option String)
    (now expiresIn : Nat)
    (hu : username ≠ "") (he : email ≠ "") (hp : password ≠ "") :
    (username.length < 3 →
      postRegister dbCheck dbInsert username email password nextId jwtSecret now expiresIn =
        ((400, "Le nom d\x27utilisateur doit contenir au moins 3 caractères"), dbInsert)) ∧
    (3 ≤ username.length → password.length < 8 →
      postRegister dbCheck dbInsert username email password nextId jwtSecret now expiresIn =
        ((400, "Le mot de passe doit contenir au moins 8 caractères"), dbInsert)) ∧
    (3 ≤ username.length → 8 ≤ password.length → emailRegexTest email = false →
      postRegister dbCheck dbInsert username email password nextId jwtSecret now expiresIn =
        ((400, "Format d\x27email invalide"), dbInsert)) ∧
    (3 ≤ username.length → 8 ≤ password.length → emailRegexTest email = true →
      postRegister dbCheck dbInsert username email password nextId jwtSecret now expiresIn =
        registerUniquenessStage dbCheck dbInsert username email password nextId
          jwtSecret now expiresIn) := by
  have hu' : (username == "") = false := beq_eq_false_iff_ne.mpr hu
  have he' : (email == "") = false := beq_eq_false_iff_ne.mpr he
  have hp' : (password == "") = false := beq_eq_false_iff_ne.mpr hp
  refine ⟨?_, ?_, ?_, ?_⟩
  · intro h3
    simp [postRegister, hu', he', hp', h3]
  · intro h3 h8
    have h3' : ¬ username.length < 3 := Nat.not_lt.mpr h3
    simp [postRegister, hu', he', hp', h3', h8]
  · intro h3 h8 hre
    have h3' : ¬ username.length < 3 := Nat.not_lt.mpr h3
    have h8' : ¬ password.length < 8 := Nat.not_lt.mpr h8
    simp [postRegister, hu', he', hp', h3', h8', hre]
  · intro h3 h8 hre
    have h3' : ¬ username.length < 3 := Nat.not_lt.mpr h3
    have h8' : ¬ password.length < 8 := Nat.not_lt.mpr h8
    simp [postRegister, hu', he', hp', h3', h8', hre]

/-- Witness for C7: the spec's boundary examples — username "ab" fails and
"abc" passes the username check, password "short12" fails and "longer12"
passes the password check, a malformed email fails, and a fully valid
request reaches the uniqueness stage. -/
theorem register_validation_boundaries_witness :
    postRegister [] [] "ab" "a@b.com" "longer12" 1 (some "k") 0 604800000 =
      ((400, "Le nom d\x27utilisateur doit contenir au moins 3 caractères"), []) ∧
    postRegister [] [] "abc" "a@b.com" "short12" 1 (some "k") 0 604800000 =
      ((400, "Le mot de passe doit contenir au moins 8 caractères"), []) ∧
    postRegister [] [] "abc" "not-an-email" "longer12" 1 (some "k") 0 604800000 =
      ((400, "Format d\x27email invalide"), []) ∧
    postRegister [] [] "abc" "a@b.com" "longer12" 1 (some "k") 0 604800000 =
      registerUniquenessStage [] [] "abc" "a@b.com" "longer12" 1 (some "k") 0 604800000 :=
  ⟨(register_validation_boundaries [] [] "ab" "a@b.com" "longer12" 1 (some "k") 0
      604800000 (by decide) (by decide) (by decide)).1 (by decide),
   (register_validation_boundaries [] [] "abc" "a@b.com" "short12" 1 (some "k") 0
      604800000 (by decide) (by decide) (by decide)).2.1 (by decide) (by decide),
   (register_validation_boundaries [] [] "abc" "not-an-email" "longer12" 1 (some "k") 0
      604800000 (by decide) (by decide) (by decide)).2.2.1 (by decide) (by decide)
      (by decide),
   (register_validation_boundaries [] [] "abc" "a@b.com" "longer12" 1 (some "k") 0
      604800000 (by decide) (by decide) (by decide)).2.2.2 (by decide) (by decide)
      (by decide)⟩

/-- C4 counterexample: the pre-insert check passes on its snapshot, the
insert hits the unique constraint (a concurrent registration of the same
email landed in between), and the route's catch-all answers 500 — not the
409 the claim requires. -/
theorem register_race_counterexample :
    (postRegister []
        [{ id := 1, username := "bob", email := "a@b.com", passwordHash := "h",
           role := "user", resetToken := none, resetTokenExpiry := none }]
        "alice" "a@b.com" "password1" 2 (some "k") 0 604800000).1.1 = 500 ∧
    (postRegister []
        [{ id := 1, username := "bob", email := "a@b.com", passwordHash := "h",
           role := "user", resetToken := none, resetTokenExpiry := none }]
        "alice" "a@b.com" "password1" 2 (some "k") 0 604800000).1.1 ≠ 409 := by
  decide

/-- C4 amended: a duplicate visible to the pre-insert case-insensitive check
yields Conflict 409 and creates no record; but when the check passes and the
insert itself violates the persistence layer's unique constraint (a
check/insert race), the catch-all maps the thrown error to 500 — also
creating no record — rather than to 409. -/
theorem register_conflict_behaviour (dbCheck dbInsert : List User)
    (username email password : String) (nextId : Nat) (jwtSecret : Option String)
    (now expiresIn : Nat)
    (hu : username ≠ "") (he : email ≠ "") (hp : password ≠ "")
    (h3 : 3 ≤ username.length) (h8 : 8 ≤ password.length)
    (hre : emailRegexTest email = true) :
    (dbCheck.any (registerConflict username email) = true →
      postRegister dbCheck dbInsert username email password nextId jwtSecret now expiresIn =
        ((409, "Ce nom d\x27utilisateur ou email est déjà utilisé"), dbInsert)) ∧
    (dbCheck.any (registerConflict username email) = false →
      dbInsert.any (uniqueViolation username email) = true →
      postRegister dbCheck dbInsert username email password nextId jwtSecret now expiresIn =
        ((500, "Erreur lors de l\x27inscription"), dbInsert)) := by
  have hu' : (username == "") = false := beq_eq_false_iff_ne.mpr hu
  have he' : (email == "") = false := beq_eq_false_iff_ne.mpr he
  have hp' : (password == "") = false := beq_eq_false_iff_ne.mpr hp
  have h3' : ¬ username.length < 3 := Nat.not_lt.mpr h3
  have h8' : ¬ password.length < 8 := Nat.not_lt.mpr h8
  refine ⟨?_, ?_⟩
  · intro hdup
    simp [postRegister, registerUniquenessStage, hu', he', hp', h3', h8', hre, hdup]
  · intro hdup hvio
    simp [postRegister, registerUniquenessStage, hu', he', hp', h3', h8', hre, hdup, hvio]

/-- Witness for the amended C4: the spec's case-insensitivity example —
"A@b.com" conflicts with a stored "a@b.com" at the pre-insert check — and
the race scenario of the counterexample answering 500 with no new record. -/
theorem register_conflict_behaviour_witness :
    postRegister
        [{ id := 1, username := "bob", email := "a@b.com", passwordHash := "h",
           role := "user", resetToken := none, resetTokenExpiry := none }]
        [{ id := 1, username := "bob", email := "a@b.com", passwordHash := "h",
           role := "user", resetToken := none, resetTokenExpiry := none }]
        "alice" "A@b.com" "password1" 2 (some "k") 0 604800000 =
      ((409, "Ce nom d\x27utilisateur ou email est déjà utilisé"),
        [{ id := 1, username := "bob", email := "a@b.com", passwordHash := "h",
           role := "user", resetToken := none, resetTokenExpiry := none }]) ∧
    postRegister []
        [{ id := 1, username := "bob", email := "a@b.com", passwordHash := "h",
           role := "user", resetToken := none, resetTokenExpiry := none }]
        "alice" "a@b.com" "password1" 2 (some "k") 0 604800000 =
      ((500, "Erreur lors de l\x27inscription"),
        [{ id := 1, username := "bob", email := "a@b.com", passwordHash := "h",
           role := "user", resetToken := none, resetTokenExpiry := none }]) :=
  ⟨(register_conflict_behaviour
      [{ id := 1, username := "bob", email := "a@b.com", passwordHash := "h",
         role := "user", resetToken := none, resetTokenExpiry := none }]
      [{ id := 1, username := "bob", email := "a@b.com", passwordHash := "h",
         role := "user", resetToken := none, resetTokenExpiry := none }]
      "alice" "A@b.com" "password1" 2 (some "k") 0 604800000
      (by decide) (by decide) (by decide) (by decide) (by decide) (by decide)).1
      (by decide),
   (register_conflict_behaviour []
      [{ id := 1, username := "bob", email := "a@b.com", passwordHash := "h",
         role := "user", resetToken := none, resetTokenExpiry := none }]
      "alice" "a@b.com" "password1" 2 (some "k") 0 604800000
      (by decide) (by decide) (by decide) (by decide) (by decide) (by decide)).2
      (by decide) (by decide)⟩

/-- C5: login matches the single `login` field against username and email
case-insensitively, and every failed attempt — no matching user, or a
password that does not verify — answers 401 with one identical message. -/
theorem login_no_enumeration (db : List User) (login password : String)
    (jwtSecret : Option String) (now expiresIn : Nat)
    (hl : login ≠ "") (hp : password ≠ "") :
    (db.find? (loginMatches login) = none →
      postLogin db login password jwtSecret now expiresIn =
        (401, "Identifiant ou mot de passe incorrect")) ∧
    (∀ u, db.find? (loginMatches login) = some u →
      lowerStr u.username = lowerStr login ∨ lowerStr u.email = lowerStr login) ∧
    (∀ u, db.find? (loginMatches login) = some u →
      bcryptCompare password u.passwordHash = false →
      postLogin db login password jwtSecret now expiresIn =
        (401, "Identifiant ou mot de passe incorrect")) := by
  have hl' : (login == "") = false := beq_eq_false_iff_ne.mpr hl
  have hp' : (password == "") = false := beq_eq_false_iff_ne.mpr hp
  refine ⟨?_, ?_, ?_⟩
  · intro hfind
    simp [postLogin, hl', hp', hfind]
  · intro u hfind
    have hmatch := List.find?_some hfind
    simpa [loginMatches] using hmatch
  · intro u hfind hcmp
    simp [postLogin, hl', hp', hfind, hcmp]

/-- Witness for C5: a concrete miss and a concrete wrong password both
produce the same 401 response, and a found user matched case-insensitively. -/
theorem login_no_enumeration_witness :
    postLogin [] "alice" "password1" (some "k") 0 604800000 =
      (401, "Identifiant ou mot de passe incorrect") ∧
    postLogin
        [{ id := 1, username := "alice", email := "a@b.com",
           passwordHash := bcryptHash "password1", role := "user",
           resetToken := none, resetTokenExpiry := none }]
        "ALICE" "guess" (some "k") 0 604800000 =
      (401, "Identifiant ou mot de passe incorrect") ∧
    (lowerStr "alice" = lowerStr "ALICE" ∨ lowerStr "a@b.com" = lowerStr "ALICE") :=
  ⟨(login_no_enumeration [] "alice" "password1" (some "k") 0 604800000
      (by decide) (by decide)).1 (by decide),
   ((login_no_enumeration
      [{ id := 1, username := "alice", email := "a@b.com",
         passwordHash := bcryptHash "password1", role := "user",
         resetToken := none, resetTokenExpiry := none }]
      "ALICE" "guess" (some "k") 0 604800000
      (by decide) (by decide)).2.2
      { id := 1, username := "alice", email := "a@b.com",
        passwordHash := bcryptHash "password1", role := "user",
        resetToken := none, resetTokenExpiry := none }
      (by decide) (by decide)),
   ((login_no_enumeration
      [{ id := 1, username := "alice", email := "a@b.com",
         passwordHash := bcryptHash "password1", role := "user",
         resetToken := none, resetTokenExpiry := none }]
      "ALICE" "x" (some "k") 0 604800000
      (by decide) (by decide)).2.1
      { id := 1, username := "alice", email := "a@b.com",
        passwordHash := bcryptHash "password1", role := "user",
        resetToken := none, resetTokenExpiry := none }
      (by decide))⟩

/-- Handler of `POST /auth/forgot-password` (`src/routes/auth.js` lines 253-329):
`rand` models the `crypto.randomBytes(32).toString('hex')` secret supplied
by the environment.  Whether or not a user carries the email, the client
receives the same generic 200 message; when one does, the sha256 hash of
the secret and a one-hour expiry are stored on the record. -/
def postForgotPassword (db : List User) (email : String) (rand : String)
    (now : Nat) : (Nat × String) × List User :=
  if email == "" then ((400, "Email requis"), db)
  else
    match db.find? (fun u => lowerStr u.email == lowerStr email) with
    | none =>
        ((200, "Si un compte existe avec cet email, un lien de réinitialisation a été envoyé."), db)
    | some u =>
        ((200, "Si un compte existe avec cet email, un lien de réinitialisation a été envoyé."),
          db.map (fun v =>
            if v.id == u.id then
              { v with resetToken := some (sha256hex rand),
                       resetTokenExpiry := some (now + 3600000) }
            else v))

/-- The reset-token lookup of `POST /auth/reset-password`
(`src/routes/auth.js` lines 354-357):
`reset_token = $1 AND reset_token_expiry > NOW()`. -/
def resetMatches (tokenHash : String) (now : Nat) (u : User) : Bool :=
  u.resetToken == some tokenHash &&
    (match u.resetTokenExpiry with
     | some e => decide (now < e)
     | none => false)

/-- Handler of `POST /auth/reset-password` (`src/routes/auth.js` lines 336-384):
presence and length validation, sha256 of the presented plaintext, lookup
of a user whose stored hash matches with an unexpired expiry, then a single
UPDATE storing the new bcrypt hash and clearing both reset-token columns. -/
def postResetPassword (db : List User) (now : Nat) (token password : String) :
    (Nat × String) × List User :=
  if token == "" || password == "" then
    ((400, "Token et nouveau mot de passe requis"), db)
  else if password.length < 8 then
    ((400, "Le mot de passe doit contenir au moins 8 caractères"), db)
  else
    match db.find? (resetMatches (sha256hex token) now) with
    | none =>
        ((400, "Lien invalide ou expiré. Veuillez faire une nouvelle demande."), db)
    | some u =>
        ((200, "Mot de passe réinitialisé avec succès. Vous pouvez maintenant vous connecter."),
          db.map (fun v =>
            if v.id == u.id then
              { v with passwordHash := bcryptHash password,
                       resetToken := none, resetTokenExpiry := none }
            else v))

/-- Handler of `POST /auth/change-password` (`src/routes/auth.js` lines 194-246):
presence check, new-password length check, lookup of the requester's row,
`bcrypt.compare` of the current password, then the hash update. -/
def postChangePassword (db : List User) (userId : Nat)
    (currentPassword newPassword : String) : (Nat × String) × List User :=
  if currentPassword == "" || newPassword == "" then
    ((400, "Mot de passe actuel et nouveau mot de passe requis"), db)
  else if newPassword.length < 8 then
    ((400, "Le nouveau mot de passe doit contenir au moins 8 caractères"), db)
  else
    match db.find? (fun u => u.id == userId) with
    | none => ((404, "Utilisateur non trouvé"), db)
    | some u =>
        if bcryptCompare currentPassword u.passwordHash then
          ((200, "Mot de passe modifié avec succès"),
            db.map (fun v =>
              if v.id == userId then { v with passwordHash := bcryptHash newPassword }
              else v))
        else ((401, "Mot de passe actuel incorrect"), db)

/-- Handler of `PATCH /users/:id` (`src/routes/users.js` lines 65-102): role validation,
the self-demotion guard `parseInt(id) === req.user.id && role !== 'admin'`,
then the role UPDATE (404 when no row matches). -/
def patchUserRole (db : List User) (requesterId targetId : Nat) (role : String) :
    (Nat × String) × List User :=
  if !(role == "user" || role == "admin") then
    ((400, "Rôle invalide. Utilisez \"user\" ou \"admin\""), db)
  else if targetId == requesterId && !(role == "admin") then
    ((400, "Vous ne pouvez pas modifier votre propre rôle"), db)
  else if db.any (fun u => u.id == targetId) then
    ((200, "updated"), db.map (fun u => if u.id == targetId then { u with role := role } else u))
  else ((404, "Utilisateur non trouvé"), db)

/-- Handler of `DELETE /users/:id` (`src/routes/users.js` lines 108-135): the
self-deletion guard `parseInt(id) === req.user.id`, then the DELETE
(404 when no row matches). -/
def deleteUserById (db : List User) (requesterId targetId : Nat) :
    (Nat × String) × List User :=
  if targetId == requesterId then
    ((400, "Vous ne pouvez pas supprimer votre propre compte"), db)
  else if db.any (fun u => u.id == targetId) then
    ((200, "Utilisateur supprimé"), db.filter (fun u => !(u.id == targetId)))
  else ((404, "Utilisateur non trouvé"), db)

/-- C6: anti-enumeration of forgot-password — for a non-empty email, the
client-visible response is the same generic 200 message whether or not any
user carries that email: two runs differing only in the database (and even
in secret and clock) produce identical responses. -/
theorem forgotPassword_no_enumeration (db₁ db₂ : List User) (email : String)
    (rand₁ rand₂ : String) (now₁ now₂ : Nat) (he : email ≠ "") :
    (postForgotPassword db₁ email rand₁ now₁).1 =
      (postForgotPassword db₂ email rand₂ now₂).1 ∧
    (postForgotPassword db₁ email rand₁ now₁).1 =
      (200, "Si un compte existe avec cet email, un lien de réinitialisation a été envoyé.") := by
  have he' : (email == "") = false := beq_eq_false_iff_ne.mpr he
  have aux : ∀ (db : List User) (rand : String) (now : Nat),
      (postForgotPassword db email rand now).1 =
        (200, "Si un compte existe avec cet email, un lien de réinitialisation a été envoyé.") := by
    intro db rand now
    rcases hf : db.find? (fun u => lowerStr u.email == lowerStr email) with _ | u <;>
      simp [postForgotPassword, he', hf]
  exact ⟨(aux db₁ rand₁ now₁).trans (aux db₂ rand₂ now₂).symm, aux db₁ rand₁ now₁⟩

/-- Witness for C6: an unregistered and a registered run of forgot-password
answer identically. -/
theorem forgotPassword_no_enumeration_witness :
    (postForgotPassword [] "a@b.com" "r1" 0).1 =
      (postForgotPassword
        [{ id := 1, username := "alice", email := "a@b.com", passwordHash := "h",
           role := "user", resetToken := none, resetTokenExpiry := none }]
        "a@b.com" "r2" 99).1 :=
  (forgotPassword_no_enumeration []
    [{ id := 1, username := "alice", email := "a@b.com", passwordHash := "h",
       role := "user", resetToken := none, resetTokenExpiry := none }]
    "a@b.com" "r1" "r2" 0 99 (by decide)).1

/-- C10: change-password validates the new password's length before
verifying the current password — any new password shorter than 8 yields 400
(never 401) whatever the current password — and every non-200 outcome
leaves the stored rows unchanged. -/
theorem changePassword_orders_checks (db : List User) (userId : Nat)
    (currentPassword newPassword : String) :
    (newPassword.length < 8 →
      (postChangePassword db userId currentPassword newPassword).1.1 = 400) ∧
    ((postChangePassword db userId currentPassword newPassword).1.1 ≠ 200 →
      (postChangePassword db userId currentPassword newPassword).2 = db) := by
  refine ⟨?_, ?_⟩
  · intro h8
    by_cases hc : (currentPassword == "" || newPassword == "") = true
    · simp [postChangePassword, hc]
    · simp [postChangePassword, hc, h8]
  · intro hne
    by_cases hc : (currentPassword == "" || newPassword == "") = true
    · simp [postChangePassword, hc]
    · by_cases h8 : newPassword.length < 8
      · simp [postChangePassword, hc, h8]
      · rcases hf : db.find? (fun u => u.id == userId) with _ | u
        · simp [postChangePassword, hc, h8, hf]
        · by_cases hcmp : bcryptCompare currentPassword u.passwordHash = true
          · exact absurd (by simp [postChangePassword, hc, h8, hf, hcmp]) hne
          · simp [postChangePassword, hc, h8, hf, hcmp]

/-- Witness for C10: a 7-character new password with the correct current
password still answers 400, and the row is untouched. -/
theorem changePassword_orders_checks_witness :
    (postChangePassword
      [{ id := 1, username := "alice", email := "a@b.com",
         passwordHash := bcryptHash "password1", role := "user",
         resetToken := none, resetTokenExpiry := none }]
      1 "password1" "short12").1.1 = 400 ∧
    (postChangePassword
      [{ id := 1, username := "alice", email := "a@b.com",
         passwordHash := bcryptHash "password1", role := "user",
         resetToken := none, resetTokenExpiry := none }]
      1 "password1" "short12").2 =
      [{ id := 1, username := "alice", email := "a@b.com",
         passwordHash := bcryptHash "password1", role := "user",
         resetToken := none, resetTokenExpiry := none }] :=
  ⟨(changePassword_orders_checks
      [{ id := 1, username := "alice", email := "a@b.com",
         passwordHash := bcryptHash "password1", role := "user",
         resetToken := none, resetTokenExpiry := none }]
      1 "password1" "short12").1 (by decide),
   (changePassword_orders_checks
      [{ id := 1, username := "alice", email := "a@b.com",
         passwordHash := bcryptHash "password1", role := "user",
         resetToken := none, resetTokenExpiry := none }]
      1 "password1" "short12").2 (by decide)⟩

/-- C9: no admin can touch their own account through /users — a PATCH whose
target is the requester with a role other than admin is rejected 400 with
the rows unchanged, and a DELETE whose target is the requester is rejected
400 with the rows unchanged. -/
theorem users_self_guards (db : List User) (requesterId : Nat) (role : String) :
    (role ≠ "admin" →
      (patchUserRole db requesterId requesterId role).1.1 = 400 ∧
      (patchUserRole db requesterId requesterId role).2 = db) ∧
    ((deleteUserById db requesterId requesterId).1.1 = 400 ∧
      (deleteUserById db requesterId requesterId).2 = db) := by
  refine ⟨?_, ?_⟩
  · intro hra
    have hra' : (role == "admin") = false := beq_eq_false_iff_ne.mpr hra
    by_cases hrv : (role == "user" || role == "admin") = true
    · simp [patchUserRole, hrv, hra']
      by_cases hu : role = "user" <;> simp [hu]
    · simp [patchUserRole, hrv]
  · simp [deleteUserById]

/-- Witness for C9: the admin with id 1 can neither demote nor delete
themselves. -/
theorem users_self_guards_witness :
    (patchUserRole
      [{ id := 1, username := "root", email := "r@b.com", passwordHash := "h",
         role := "admin", resetToken := none, resetTokenExpiry := none }]
      1 1 "user").1.1 = 400 ∧
    (patchUserRole
      [{ id := 1, username := "root", email := "r@b.com", passwordHash := "h",
         role := "admin", resetToken := none, resetTokenExpiry := none }]
      1 1 "user").2 =
      [{ id := 1, username := "root", email := "r@b.com", passwordHash := "h",
         role := "admin", resetToken := none, resetTokenExpiry := none }] ∧
    (deleteUserById
      [{ id := 1, username := "root", email := "r@b.com", passwordHash := "h",
         role := "admin", resetToken := none, resetTokenExpiry := none }]
      1 1).1.1 = 400 ∧
    (deleteUserById
      [{ id := 1, username := "root", email := "r@b.com", passwordHash := "h",
         role := "admin", resetToken := none, resetTokenExpiry := none }]
      1 1).2 =
      [{ id := 1, username := "root", email := "r@b.com", passwordHash := "h",
         role := "admin", resetToken := none, resetTokenExpiry := none }] :=
  ⟨((users_self_guards
      [{ id := 1, username := "root", email := "r@b.com", passwordHash := "h",
         role := "admin", resetToken := none, resetTokenExpiry := none }]
      1 "user").1 (by decide)).1,
   ((users_self_guards
      [{ id := 1, username := "root", email := "r@b.com", passwordHash := "h",
         role := "admin", resetToken := none, resetTokenExpiry := none }]
      1 "user").1 (by decide)).2,
   (users_self_guards
      [{ id := 1, username := "root", email := "r@b.com", passwordHash := "h",
         role := "admin", resetToken := none, resetTokenExpiry := none }]
      1 "user").2.1,
   (users_self_guards
      [{ id := 1, username := "root", email := "r@b.com", passwordHash := "h",
         role := "admin", resetToken := none, resetTokenExpiry := none }]
      1 "user").2.2⟩

/-- A reset-password call whose token lookup misses answers the collapsed
invalid-or-expired 400. -/
theorem postResetPassword_miss (db : List User) (now : Nat) (token pw : String)
    (ht' : (token == "") = false) (hp' : (pw == "") = false)
    (h8' : ¬ pw.length < 8)
    (hf : db.find? (resetMatches (sha256hex token) now) = none) :
    (postResetPassword db now token pw).1 =
      (400, "Lien invalide ou expiré. Veuillez faire une nouvelle demande.") := by
  simp [postResetPassword, ht', hp', h8', hf]

/-- C3: reset-token consumption with a valid new password succeeds exactly
when some stored reset-token hash equals the hash of the presented
plaintext with an unexpired expiry; on success the matched record gets the
new password hash with both reset fields cleared in the one persisted
update, after which (when the match was unique) presenting the same
plaintext again fails; every failing presentation answers the single
collapsed invalid-or-expired 400 and leaves the rows unchanged. -/
theorem resetPassword_consume_spec (db : List User) (now : Nat)
    (token password : String) (ht : token ≠ "") (h8 : 8 ≤ password.length) :
    ((postResetPassword db now token password).1.1 = 200 ↔
      ∃ u ∈ db, resetMatches (sha256hex token) now u = true) ∧
    ((postResetPassword db now token password).1.1 ≠ 200 →
      (postResetPassword db now token password).1 =
        (400, "Lien invalide ou expiré. Veuillez faire une nouvelle demande.") ∧
      (postResetPassword db now token password).2 = db) ∧
    (∀ u, db.find? (resetMatches (sha256hex token) now) = some u →
      (∃ v ∈ (postResetPassword db now token password).2,
        v.id = u.id ∧ v.passwordHash = bcryptHash password ∧
        v.resetToken = none ∧ v.resetTokenExpiry = none) ∧
      ((∀ w ∈ db, w.resetToken = some (sha256hex token) → w = u) →
        ∀ now₂ pw₂, 8 ≤ pw₂.length →
          (postResetPassword (postResetPassword db now token password).2
              now₂ token pw₂).1 =
            (400, "Lien invalide ou expiré. Veuillez faire une nouvelle demande."))) := by
  have hp : password ≠ "" := by
    intro h; rw [h] at h8; exact absurd h8 (by decide)
  have ht' : (token == "") = false := beq_eq_false_iff_ne.mpr ht
  have hp' : (password == "") = false := beq_eq_false_iff_ne.mpr hp
  have h8' : ¬ password.length < 8 := Nat.not_lt.mpr h8
  rcases hf : db.find? (resetMatches (sha256hex token) now) with _ | u
  · have hnone := List.find?_eq_none.mp hf
    refine ⟨?_, ?_, ?_⟩
    · simp only [postResetPassword, ht', hp', h8', hf]
      simp only [Bool.or_self, Bool.false_eq_true, if_false, if_neg h8']
      constructor
      · intro h; exact absurd h (by decide)
      · rintro ⟨u, hu, hmatch⟩; exact absurd hmatch (hnone u hu)
    · intro _
      simp [postResetPassword, ht', hp', h8', hf]
    · intro u hu; exact absurd hu (by simp)
  · have humem : u ∈ db := List.mem_of_find?_eq_some hf
    have hr : postResetPassword db now token password =
        ((200, "Mot de passe réinitialisé avec succès. Vous pouvez maintenant vous connecter."),
          db.map (fun v =>
            if v.id == u.id then
              { v with passwordHash := bcryptHash password,
                       resetToken := none, resetTokenExpiry := none }
            else v)) := by
      simp [postResetPassword, ht', hp', h8', hf]
    refine ⟨?_, ?_, ?_⟩
    · rw [hr]
      exact ⟨fun _ => ⟨u, humem, List.find?_some hf⟩, fun _ => rfl⟩
    · intro hne; exact absurd (by rw [hr]) hne
    · intro u' hu'
      have : u' = u := by injection hu' with h; exact h.symm
      subst this
      constructor
      · rw [hr]
        refine ⟨_, List.mem_map_of_mem _ humem, ?_⟩
        simp
      · intro huniq now₂ pw₂ h8b
        have hpw₂ : pw₂ ≠ "" := by
          intro h; rw [h] at h8b; exact absurd h8b (by decide)
        have hpw₂' : (pw₂ == "") = false := beq_eq_false_iff_ne.mpr hpw₂
        have h8b' : ¬ pw₂.length < 8 := Nat.not_lt.mpr h8b
        have hfind₂ :
            ((postResetPassword db now token password).2).find?
              (resetMatches (sha256hex token) now₂) = none := by
          rw [hr]
          refine List.find?_eq_none.mpr ?_
          intro v hv
          rw [List.mem_map] at hv
          obtain ⟨w, hw, rfl⟩ := hv
          by_cases hid : (w.id == u'.id) = true
          · simp [hid, resetMatches]
          · simp only [hid, Bool.false_eq_true, if_false]
            have hwt : w.resetToken ≠ some (sha256hex token) := by
              intro hcontra
              have := huniq w hw hcontra
              subst this
              exact hid (by simp)
            simp [resetMatches, beq_eq_false_iff_ne.mpr hwt]
        exact postResetPassword_miss _ now₂ token pw₂ ht' hpw₂' h8b' hfind₂

/-- Witness for C3: a stored token hash consumed before expiry succeeds and
clears the record; the immediate second consumption fails with the
collapsed invalid-or-expired error. -/
theorem resetPassword_consume_spec_witness :
    (postResetPassword
      [{ id := 1, username := "alice", email := "a@b.com", passwordHash := "h",
         role := "user", resetToken := some (sha256hex "secret"),
         resetTokenExpiry := some 3600000 }]
      10 "secret" "longer12").1.1 = 200 ∧
    (postResetPassword
      (postResetPassword
        [{ id := 1, username := "alice", email := "a@b.com", passwordHash := "h",
           role := "user", resetToken := some (sha256hex "secret"),
           resetTokenExpiry := some 3600000 }]
        10 "secret" "longer12").2
      10 "secret" "longer12").1 =
      (400, "Lien invalide ou expiré. Veuillez faire une nouvelle demande.") ∧
    (postResetPassword
      [{ id := 1, username := "alice", email := "a@b.com", passwordHash := "h",
         role := "user", resetToken := some (sha256hex "secret"),
         resetTokenExpiry := some 3600000 }]
      7200000 "secret" "longer12").1.1 ≠ 200 :=
  ⟨(resetPassword_consume_spec
      [{ id := 1, username := "alice", email := "a@b.com", passwordHash := "h",
         role := "user", resetToken := some (sha256hex "secret"),
         resetTokenExpiry := some 3600000 }]
      10 "secret" "longer12" (by decide) (by decide)).1.mpr
      ⟨{ id := 1, username := "alice", email := "a@b.com", passwordHash := "h",
         role := "user", resetToken := some (sha256hex "secret"),
         resetTokenExpiry := some 3600000 }, by decide, by decide⟩,
   (((resetPassword_consume_spec
      [{ id := 1, username := "alice", email := "a@b.com", passwordHash := "h",
         role := "user", resetToken := some (sha256hex "secret"),
         resetTokenExpiry := some 3600000 }]
      10 "secret" "longer12" (by decide) (by decide)).2.2
      { id := 1, username := "alice", email := "a@b.com", passwordHash := "h",
        role := "user", resetToken := some (sha256hex "secret"),
        resetTokenExpiry := some 3600000 } (by decide)).2
      (by decide) 10 "longer12" (by decide)),
   fun h =>
     absurd ((resetPassword_consume_spec
      [{ id := 1, username := "alice", email := "a@b.com", passwordHash := "h",
         role := "user", resetToken := some (sha256hex "secret"),
         resetTokenExpiry := some 3600000 }]
      7200000 "secret" "longer12" (by decide) (by decide)).1.mp h)
      (by decide)⟩

/-- The `authLimiter` window (`src/middleware/rateLimiter.js` line 9):
`windowMs: 15 * 60 * 1000`. -/
def authWindowMs : Nat := 15 * 60 * 1000

/-- The `authLimiter` maximum (`src/middleware/rateLimiter.js` line 10): `max: 5`. -/
def authMax : Nat := 5

/-- One client's window state held by the rate limiter: attempts counted in
the current window and the window's start time. -/
structure RLState where
  count : Nat
  windowStart : Nat
deriving Repr, DecidableEq

/-- Modelled from the spec: one completed request through the external
express-rate-limit counter configured by `authLimiter`
(`skipSuccessfulRequests: true`, mounted on `/auth`).  A fresh window opens
when the previous one has elapsed; a request is rejected when the window
already holds `authMax` counted attempts; an allowed request is counted
unless it completed successfully. -/
def rlStep (s : RLState) (now : Nat) (success : Bool) : Bool × RLState :=
  let s₁ := if s.windowStart + authWindowMs ≤ now then
              { count := 0, windowStart := now } else s
  if s₁.count < authMax then
    (true, if success then s₁ else { s₁ with count := s₁.count + 1 })
  else
    (false, s₁)

/-- A run of failed attempts at the given times: the per-request verdicts
and the final window state. -/
def rlRunFailed (s : RLState) : List Nat → List Bool × RLState
  | [] => ([], s)
  | t :: ts =>
      let r₁ := rlStep s t false
      let r₂ := rlRunFailed r₁.2 ts
      (r₁.1 :: r₂.1, r₂.2)

/-- Failed attempts inside one window are all allowed and counted while the
budget lasts. -/
theorem rlRunFailed_within_window (t₀ : Nat) (ts : List Nat) :
    ∀ c : Nat, (∀ t ∈ ts, t < t₀ + authWindowMs) → c + ts.length ≤ authMax →
    rlRunFailed ⟨c, t₀⟩ ts =
      (List.replicate ts.length true, ⟨c + ts.length, t₀⟩) := by
  induction ts with
  | nil => intro c _ _; simp [rlRunFailed]
  | cons t ts ih =>
      intro c hin hle
      have ht : t < t₀ + authWindowMs := hin t (List.mem_cons_self t ts)
      have hc : c < authMax := by
        have hl : (t :: ts).length = ts.length + 1 := List.length_cons t ts
        omega
      have hstep : rlStep ⟨c, t₀⟩ t false = (true, ⟨c + 1, t₀⟩) := by
        simp [rlStep, Nat.not_le_of_lt ht, hc]
      have htail := ih (c + 1)
        (fun t' ht' => hin t' (List.mem_cons_of_mem t ht'))
        (by simp at hle ⊢; omega)
      simp only [rlRunFailed, hstep, htail, List.length_cons, List.replicate_succ]
      refine Prod.ext rfl ?_
      simp only []
      congr 1
      omega

/-- C8: under the auth policy (15-minute window, max 5), five failed login
attempts within one window are all admitted and counted, the sixth attempt
in the same window is rejected, and a successful login never increments the
client's counter (when its window has not elapsed it leaves the state
untouched). -/
theorem authLimiter_policy (s : RLState) (now t₀ t₆ : Nat) (ts : List Nat)
    (hlen : ts.length = 5)
    (hin : ∀ t ∈ ts, t < t₀ + authWindowMs)
    (h₆ : t₆ < t₀ + authWindowMs) :
    (rlRunFailed ⟨0, t₀⟩ ts).1 = List.replicate 5 true ∧
    (rlStep (rlRunFailed ⟨0, t₀⟩ ts).2 t₆ false).1 = false ∧
    (rlStep s now true).2.count ≤ s.count ∧
    (now < s.windowStart + authWindowMs → (rlStep s now true).2 = s) := by
  have hrun := rlRunFailed_within_window t₀ ts 0 hin (by rw [hlen]; decide)
  rw [hlen] at hrun
  refine ⟨?_, ?_, ?_, ?_⟩
  · rw [hrun]
  · rw [hrun]
    simp [rlStep, Nat.not_le_of_lt h₆, authMax]
  · by_cases hw : s.windowStart + authWindowMs ≤ now
    · by_cases hcnt : (0 : Nat) < authMax <;> simp [rlStep, hw, hcnt]
    · by_cases hcnt : s.count < authMax <;> simp [rlStep, hw, hcnt]
  · intro hnow
    have hw : ¬ s.windowStart + authWindowMs ≤ now := Nat.not_le_of_lt hnow
    by_cases hcnt : s.count < authMax <;> simp [rlStep, hw, hcnt]

/-- Witness for C8: five failed attempts at minutes 1-5 are admitted, a
sixth at minute 6 is rejected, and a successful login from a mid-window
state does not move the counter. -/
theorem authLimiter_policy_witness :
    (rlRunFailed ⟨0, 0⟩ [60000, 120000, 180000, 240000, 300000]).1 =
      List.replicate 5 true ∧
    (rlStep (rlRunFailed ⟨0, 0⟩ [60000, 120000, 180000, 240000, 300000]).2
      360000 false).1 = false ∧
    (rlStep ⟨3, 0⟩ 360000 true).2.count ≤ 3 ∧
    (rlStep ⟨3, 0⟩ 360000 true).2 = ⟨3, 0⟩ := by
  have h := authLimiter_policy ⟨3, 0⟩ 360000 0 360000
    [60000, 120000, 180000, 240000, 300000] (by decide) (by decide) (by decide)
  exact ⟨h.1, h.2.1, h.2.2.1, h.2.2.2 (by decide)⟩

end Bartending
